import Mathlib

/-!
Verification of the stake-engine-client operation-dispatch layer

Shallow embedding of the TypeScript client (`src/client.ts`, `src/fetcher.ts`,
`src/constants.ts`) for the Stake Engine RGS API.

Modelling conventions:
- JavaScript `number` is embedded as `ℚ` (exact arithmetic; the source performs
  plain `*` and `/`, and every claim is settled against this exact model).
- A JavaScript string value that may be `null`/`undefined` is `Option String`;
  JS falsiness of `null`/`undefined`/`""` is the `falsy` predicate, and the JS
  `a || b` idiom on such values is `jsOr` / `jsOrD`.
- The `fetch` transport is an explicit parameter `transport : Request → HttpResponse`;
  the browser query string read by `getUrlParams` is an explicit `UrlParams` value.
- An `async` function that may `throw` is `Except ClientError _`; the number of
  transport invocations of a run is returned alongside the result so that
  "no network call is attempted" is a statement about the model, not a side remark.
-/

set_option autoImplicit false

namespace StakeEngine

/-- Decidable equality for `Except`, so that concrete runs of the embedded
operations can be checked by `decide`. -/
instance instDecidableEqExcept {ε α : Type} [DecidableEq ε] [DecidableEq α] :
    DecidableEq (Except ε α) := fun x y =>
  match x, y with
  | .ok a, .ok b =>
    if h : a = b then .isTrue (by rw [h]) else .isFalse (by simp [h])
  | .error a, .error b =>
    if h : a = b then .isTrue (by rw [h]) else .isFalse (by simp [h])
  | .ok _, .error _ => .isFalse (by simp)
  | .error _, .ok _ => .isFalse (by simp)

/-- JS falsiness for a nullable string: `null`/`undefined` (`none`) and the
empty string are falsy. -/
def falsy : Option String → Bool
  | none => true
  | some s => s == ""

/-- The JS `a || b` idiom on nullable strings: yields `b` whenever `a` is falsy. -/
def jsOr (a b : Option String) : Option String :=
  if falsy a then b else a

/-- The JS `a || d` idiom with a plain-string default `d`. -/
def jsOrD (a : Option String) (d : String) : String :=
  match a with
  | none => d
  | some s => if s == "" then d else s

/-- The raw browser query parameters read by `getUrlParams` via
`new URLSearchParams(window.location.search)`; `urlParams.get k` is `none`
when the parameter is absent. Passed explicitly to model the ambient source. -/
structure UrlParams where
  sessionID : Option String
  rgs_url : Option String
  lang : Option String
  currency : Option String
  deriving DecidableEq, Repr

/-- Result shape of `getUrlParams` in `client.ts` (lines 85–93). -/
structure ResolvedUrlParams where
  sessionID : Option String
  rgsUrl : Option String
  language : String
  currency : String
  deriving DecidableEq, Repr

/-- Embeds `getUrlParams` from `client.ts`: reads `sessionID`, `rgs_url`, `lang`
(defaulted to `"en"` by `||`), `currency` (defaulted to `"USD"` by `||`). -/
def getUrlParams (w : UrlParams) : ResolvedUrlParams :=
  { sessionID := w.sessionID
    rgsUrl := w.rgs_url
    language := jsOrD w.lang "en"
    currency := jsOrD w.currency "USD" }

/-- The constant `API_AMOUNT_MULTIPLIER` from `constants.ts`: in the API, amount 1000000 is
one dollar. -/
def API_AMOUNT_MULTIPLIER : ℚ := 1000000

/-- The constant `BOOK_AMOUNT_MULTIPLIER` from `constants.ts`: in books, amount 100 is one
dollar. -/
def BOOK_AMOUNT_MULTIPLIER : ℚ := 100

/-- JSON values, for response bodies handled by `StakeEngineClient.post`. -/
inductive Json where
  | null : Json
  | bool : Bool → Json
  | num : ℚ → Json
  | str : String → Json
  | arr : List Json → Json
  | obj : List (String × Json) → Json

/-- Field lookup on a JSON object (`none` on non-objects and absent keys). -/
def Json.lookupField : Json → String → Option Json
  | .obj fields, k => List.lookup k fields
  | _, _ => none

/-- Failures raised by the client layer.  `missingConfig f` models the
`throw new Error(f + " is required …")` guards; `transportError` models the
`RGS API error: …` throw of `StakeEngineClient.post` on a non-200 status,
carrying the HTTP status, the status text and the best-effort decoded
`errorData.message`; `decodeFailure` models an uncaught rejection of
`response.json()` on the 200 path. -/
inductive ClientError where
  | missingConfig (field : String) : ClientError
  | invalidAmount : ClientError
  | transportError (status : Nat) (statusText : String) (message : Option String) : ClientError
  | decodeFailure : ClientError
  deriving DecidableEq, Repr

/-- Request body of `/wallet/authenticate`, as built by `requestAuthenticate`. -/
structure AuthBody where
  sessionID : String
  language : String
  deriving DecidableEq, Repr

/-- Request body of `/wallet/play`, as built by `requestBet`. -/
structure PlayBody where
  mode : String
  currency : String
  sessionID : String
  amount : ℚ
  deriving DecidableEq, Repr

/-- Request body of `/bet/event`, as built by `requestEndEvent`;
`event` is the stringified event index. -/
structure EventBody where
  sessionID : String
  event : String
  deriving DecidableEq, Repr

/-- Request body of `/wallet/play` as it exists at the JavaScript runtime when
the statically required `mode`/`amount` fields were omitted by an untyped
caller: TypeScript types are erased, `JSON.stringify` drops an `undefined`
`mode` and serializes `undefined * 1000000 = NaN` as `null`, so both are
`Option` here with `none` meaning the field is absent/null on the wire. -/
structure PlayBodyJS where
  mode : Option String
  currency : String
  sessionID : String
  amount : Option ℚ
  deriving DecidableEq, Repr

/-- The JSON body of one of the POST operations of the client. -/
inductive RequestBody where
  | auth (b : AuthBody) : RequestBody
  | play (b : PlayBody) : RequestBody
  | event (b : EventBody) : RequestBody
  | playJS (b : PlayBodyJS) : RequestBody
  deriving DecidableEq, Repr

/-- The options object passed to `StakeEngineClient.post`: the wire path
(`url`), the service host (`rgsUrl`) and the body (`variables`). -/
structure PostOptions where
  url : String
  rgsUrl : String
  vars : RequestBody
  deriving DecidableEq, Repr

/-- The request handed to the `fetcher` transport primitive. -/
structure Request where
  method : String
  endpoint : String
  body : RequestBody
  deriving DecidableEq, Repr

/-- The endpoint string built by `StakeEngineClient.post`:
`https://${options.rgsUrl}${options.url}`. -/
def endpointOf (o : PostOptions) : String :=
  "https://" ++ o.rgsUrl ++ o.url

/-- The wire request `StakeEngineClient.post` hands to `fetcher`. -/
def sentRequest (o : PostOptions) : Request :=
  { method := "POST", endpoint := endpointOf o, body := o.vars }

/-- A raw HTTP response as seen by `StakeEngineClient.post`: status code,
status text, and the result of `response.json()` (`none` models a body that
fails to decode, i.e. a rejected `json()` promise). -/
structure HttpResponse where
  status : Nat
  statusText : String
  body : Option Json

/-- Best-effort extraction of `errorData.message` for the error thrown on a
non-200 response; JS appends the message only when it is truthy. -/
def errorMessage (errorData : Json) : Option String :=
  match errorData.lookupField "message" with
  | some (.str s) => if s == "" then none else some s
  | _ => none

/-- Embeds `StakeEngineClient.post` from `client.ts` (lines 24–46), given the injected
transport: sends the request via `fetcher`; on a non-200 status decodes the
error body best-effort (`response.json().catch(() => ({}))`) and throws a
transport error carrying the status; on 200 returns the decoded body unchanged,
without inspecting its contents. -/
def post (transport : Request → HttpResponse) (o : PostOptions) : Except ClientError Json :=
  let response := transport (sentRequest o)
  if response.status ≠ 200 then
    let errorData := response.body.getD (Json.obj [])
    .error (.transportError response.status response.statusText (errorMessage errorData))
  else
    match response.body with
    | some data => .ok data
    | none => .error .decodeFailure

/-- Runs one high-level operation: if building the `PostOptions` failed locally
the error is surfaced with the transport invoked zero times; otherwise the
single POST happens.  The second component counts transport invocations. -/
def runPost (build : Except ClientError PostOptions) (transport : Request → HttpResponse) :
    Except ClientError Json × Nat :=
  match build with
  | .error e => (.error e, 0)
  | .ok o => (post transport o, 1)

/-- Options object of `requestAuthenticate` (all fields optional). -/
structure AuthOptions where
  sessionID : Option String
  rgsUrl : Option String
  language : Option String
  deriving DecidableEq, Repr

/-- The local phase of `requestAuthenticate` (`client.ts` lines 113–133):
resolves `sessionID`, `rgsUrl` and `language` against the URL parameters with
the `||` idiom, throws when `sessionID` or `rgsUrl` is still falsy, and
otherwise produces the `PostOptions` for `/wallet/authenticate`. -/
def buildAuthenticate (options : AuthOptions) (w : UrlParams) :
    Except ClientError PostOptions :=
  let urlParams := getUrlParams w
  let sessionID := jsOr options.sessionID urlParams.sessionID
  let rgsUrl := jsOr options.rgsUrl urlParams.rgsUrl
  let language := jsOrD options.language urlParams.language
  if falsy sessionID then .error (.missingConfig "sessionID")
  else if falsy rgsUrl then .error (.missingConfig "rgsUrl")
  else .ok
    { url := "/wallet/authenticate"
      rgsUrl := rgsUrl.getD ""
      vars := .auth { sessionID := sessionID.getD "", language := language } }

/-- Runs `requestAuthenticate` end to end against an explicit transport. -/
def requestAuthenticate (options : AuthOptions) (w : UrlParams)
    (transport : Request → HttpResponse) : Except ClientError Json × Nat :=
  runPost (buildAuthenticate options w) transport

/-- Options object of `requestBet`: `amount` and `mode` are required by the
TypeScript signature; `currency`, `sessionID`, `rgsUrl` are optional. -/
structure BetOptions where
  amount : ℚ
  mode : String
  currency : Option String
  sessionID : Option String
  rgsUrl : Option String
  deriving DecidableEq, Repr

/-- The local phase of `requestBet` (`client.ts` lines 155–179): resolves
`sessionID`, `rgsUrl`, `currency` against the URL parameters, throws when
`sessionID` or `rgsUrl` is still falsy, and builds the `/wallet/play` body
with `amount: options.amount * API_AMOUNT_MULTIPLIER` — a plain
multiplication, with no rounding and no sign or finiteness check. -/
def buildBet (options : BetOptions) (w : UrlParams) : Except ClientError PostOptions :=
  let urlParams := getUrlParams w
  let sessionID := jsOr options.sessionID urlParams.sessionID
  let rgsUrl := jsOr options.rgsUrl urlParams.rgsUrl
  let currency := jsOrD options.currency urlParams.currency
  if falsy sessionID then .error (.missingConfig "sessionID")
  else if falsy rgsUrl then .error (.missingConfig "rgsUrl")
  else .ok
    { url := "/wallet/play"
      rgsUrl := rgsUrl.getD ""
      vars := .play
        { mode := options.mode
          currency := currency
          sessionID := sessionID.getD ""
          amount := options.amount * API_AMOUNT_MULTIPLIER } }

/-- Runs `requestBet` end to end against an explicit transport. -/
def requestBet (options : BetOptions) (w : UrlParams)
    (transport : Request → HttpResponse) : Except ClientError Json × Nat :=
  runPost (buildBet options w) transport

/-- Options object of `requestEndEvent`: `eventIndex` is required by the
TypeScript signature (embedded as `ℤ`, matching JS integer stringification). -/
structure EventOptions where
  eventIndex : ℤ
  sessionID : Option String
  rgsUrl : Option String
  deriving DecidableEq, Repr

/-- The local phase of `requestEndEvent` (`client.ts` lines 233–252): resolves
`sessionID` and `rgsUrl`, throws when either is falsy, and builds the
`/bet/event` body with the stringified event index.  Note that `eventIndex`
itself is never runtime-checked. -/
def buildEndEvent (options : EventOptions) (w : UrlParams) :
    Except ClientError PostOptions :=
  let urlParams := getUrlParams w
  let sessionID := jsOr options.sessionID urlParams.sessionID
  let rgsUrl := jsOr options.rgsUrl urlParams.rgsUrl
  if falsy sessionID then .error (.missingConfig "sessionID")
  else if falsy rgsUrl then .error (.missingConfig "rgsUrl")
  else .ok
    { url := "/bet/event"
      rgsUrl := rgsUrl.getD ""
      vars := .event { sessionID := sessionID.getD "", event := toString options.eventIndex } }

/-- Runs `requestEndEvent` end to end against an explicit transport. -/
def requestEndEvent (options : EventOptions) (w : UrlParams)
    (transport : Request → HttpResponse) : Except ClientError Json × Nat :=
  runPost (buildEndEvent options w) transport

/-- Options of `requestBet` as they can exist at the JavaScript runtime when an
untyped caller omits the statically required `amount` or `mode`: TypeScript
performs no runtime check, so absence must be representable. -/
structure BetOptionsJS where
  amount : Option ℚ
  mode : Option String
  currency : Option String
  sessionID : Option String
  rgsUrl : Option String
  deriving DecidableEq, Repr

/-- Runtime behavior of `requestBet` on a call whose required fields may be
absent (JavaScript semantics, types erased): exactly the code of `buildBet` —
only `sessionID` and `rgsUrl` are checked; an absent `mode` is passed through
(dropped from the JSON), an absent `amount` yields `undefined * 1000000 = NaN`,
serialized as `null`.  No check of `amount` or `mode` exists in the source. -/
def buildBetJS (options : BetOptionsJS) (w : UrlParams) : Except ClientError PostOptions :=
  let urlParams := getUrlParams w
  let sessionID := jsOr options.sessionID urlParams.sessionID
  let rgsUrl := jsOr options.rgsUrl urlParams.rgsUrl
  let currency := jsOrD options.currency urlParams.currency
  if falsy sessionID then .error (.missingConfig "sessionID")
  else if falsy rgsUrl then .error (.missingConfig "rgsUrl")
  else .ok
    { url := "/wallet/play"
      rgsUrl := rgsUrl.getD ""
      vars := .playJS
        { mode := options.mode
          currency := currency
          sessionID := sessionID.getD ""
          amount := options.amount.map (· * API_AMOUNT_MULTIPLIER) } }

/-- Runtime `requestBet` (types erased) end to end. -/
def requestBetJS (options : BetOptionsJS) (w : UrlParams)
    (transport : Request → HttpResponse) : Except ClientError Json × Nat :=
  runPost (buildBetJS options w) transport

/-- The documented output conversion from wire amounts back to decimal
dollars: `apiAmount / API_AMOUNT_MULTIPLIER` (see `wiki/Amount-Conversion.md`,
"Output Conversion"). -/
def fromWireAmount (apiAmount : ℚ) : ℚ :=
  apiAmount / API_AMOUNT_MULTIPLIER

/-- Modelled from the spec: the `toWireAmount` of the Amount Normalizer as the spec
describes it — multiply by the wire scale, round to the nearest integer, and
fail with `InvalidAmount` on negative input.  (Non-finite inputs are not
representable in the exact-arithmetic model.)  This definition follows the
wording of the spec and exists only to be compared with what `requestBet` actually
does (`buildBet`), which performs a bare multiplication. -/
def toWireAmountSpec (decimal : ℚ) : Except ClientError ℤ :=
  if decimal < 0 then .error .invalidAmount
  else .ok (round (decimal * API_AMOUNT_MULTIPLIER))

/-- An ambient source with no parameters at all (a URL with no query string). -/
def noParams : UrlParams :=
  { sessionID := none, rgs_url := none, lang := none, currency := none }

/-- A transport stub that answers every request with HTTP 200 and an empty
JSON object. -/
def okTransport : Request → HttpResponse :=
  fun _ => { status := 200, statusText := "OK", body := some (.obj []) }

/-- The idiom `a || b` keeps a non-empty explicit string. -/
theorem jsOr_of_ne (s : String) (hs : s ≠ "") (b : Option String) :
    jsOr (some s) b = some s := by
  simp [jsOr, falsy, hs]

/-- The idiom `a || b` falls back on an omitted explicit value. -/
theorem jsOr_none (b : Option String) : jsOr none b = b := rfl

/-- The idiom `a || b` falls back on an explicit empty string. -/
theorem jsOr_some_empty (b : Option String) : jsOr (some "") b = b := rfl

/-- The empty string is falsy. -/
theorem falsy_some_empty : falsy (some "") = true := rfl

/-- The idiom `a || b` falls back whenever `a` is falsy. -/
theorem jsOr_of_falsy (a b : Option String) (h : falsy a = true) :
    jsOr a b = b := by
  simp [jsOr, h]

/-- The idiom `a || d` yields the default exactly when `a` is falsy. -/
theorem jsOrD_of_falsy (a : Option String) (d : String) (h : falsy a = true) :
    jsOrD a d = d := by
  cases a with
  | none => rfl
  | some s =>
    simp only [falsy, beq_iff_eq] at h
    simp [jsOrD, h]

/-- The idiom `a || d` keeps a non-empty string. -/
theorem jsOrD_of_ne (s : String) (d : String) (hs : s ≠ "") :
    jsOrD (some s) d = s := by
  simp [jsOrD, hs]

/-- The idiom `a || d` yields the default on an omitted value. -/
theorem jsOrD_none (d : String) : jsOrD none d = d := rfl

/-- A non-empty string is truthy. -/
theorem falsy_of_ne (s : String) (hs : s ≠ "") : falsy (some s) = false := by
  simp [falsy, hs]

/-- C3: whenever the local build phase of any operation succeeded and the
transport answers with HTTP 200 and a decodable body, the operation succeeds
and returns that body exactly as received — the in-band `status.statusCode`
field is never inspected by this layer. -/
theorem claim_C3 (b : Except ClientError PostOptions) (o : PostOptions)
    (t : Request → HttpResponse) (j : Json)
    (hb : b = .ok o) (h200 : (t (sentRequest o)).status = 200)
    (hj : (t (sentRequest o)).body = some j) :
    runPost b t = (.ok j, 1) := by
  subst hb
  unfold runPost post
  simp [h200, hj]

/-- C3 witness: a 200 response whose body carries the domain error code
`ERR_IPB` is returned to the caller unchanged, as a success. -/
theorem claim_C3_witness :
    runPost (buildAuthenticate ⟨some "s1", some "h", none⟩ noParams)
        (fun _ => ⟨200, "OK", some (.obj [("status", .obj [("statusCode", .str "ERR_IPB")])])⟩)
      = (.ok (.obj [("status", .obj [("statusCode", .str "ERR_IPB")])]), 1) :=
  claim_C3 _ ⟨"/wallet/authenticate", "h", .auth ⟨"s1", "en"⟩⟩ _
    (.obj [("status", .obj [("statusCode", .str "ERR_IPB")])]) (by decide) rfl rfl

/-- C4: whenever the local build phase succeeded and the transport answers
with any non-200 status, the operation fails with a transport error carrying
exactly that status, the message being the best-effort decode of the error
body; if that secondary decode fails (`body = none`), the error object is
empty (no message) — never a different failure. -/
theorem claim_C4 (b : Except ClientError PostOptions) (o : PostOptions)
    (t : Request → HttpResponse)
    (hb : b = .ok o) (hs : (t (sentRequest o)).status ≠ 200) :
    runPost b t
      = (.error (.transportError (t (sentRequest o)).status (t (sentRequest o)).statusText
          (errorMessage (((t (sentRequest o)).body).getD (.obj [])))), 1) ∧
    ((t (sentRequest o)).body = none →
      runPost b t = (.error (.transportError (t (sentRequest o)).status
          (t (sentRequest o)).statusText none), 1)) := by
  subst hb
  constructor
  · unfold runPost post
    simp [hs]
  · intro hbody
    unfold runPost post
    simp [hs, hbody, errorMessage, Json.lookupField]

/-- C4 witness: a 500 response with an undecodable body fails with a
transport error carrying status 500 and no message. -/
theorem claim_C4_witness :
    runPost (buildAuthenticate ⟨some "s1", some "h", none⟩ noParams)
        (fun _ => ⟨500, "Internal Server Error", none⟩)
      = (.error (.transportError 500 "Internal Server Error" none), 1) :=
  (claim_C4 _ ⟨"/wallet/authenticate", "h", .auth ⟨"s1", "en"⟩⟩
    (fun _ => ⟨500, "Internal Server Error", none⟩) (by decide) (by decide)).2 rfl

/-- C5: configuration resolution gives precedence to a supplied (non-empty)
explicit argument and falls back to the ambient source when the explicit
field is omitted; in particular explicit session `"A"` with ambient
session `"B"` and ambient host `"h"` resolves to session `"A"`, host `"h"`. -/
theorem claim_C5 :
    (∀ (s : String) (amb : Option String), s ≠ "" → jsOr (some s) amb = some s) ∧
    (∀ amb : Option String, jsOr none amb = amb) ∧
    buildAuthenticate ⟨some "A", none, none⟩ ⟨some "B", some "h", none, none⟩
      = .ok ⟨"/wallet/authenticate", "h", .auth ⟨"A", "en"⟩⟩ := by
  refine ⟨fun s amb hs => jsOr_of_ne s hs amb, fun amb => jsOr_none amb, by decide⟩

/-- C5 witness: explicit `"A"` wins over ambient `"B"`. -/
theorem claim_C5_witness : jsOr (some "A") (some "B") = some "A" :=
  claim_C5.1 "A" (some "B") (by decide)

/-- C6: with neither an explicit nor an ambient session id the operation
(authenticate and bet alike) fails with the missing-config error naming
`sessionID` and the transport is invoked zero times; with a session id
resolved but no service host it fails naming `rgsUrl`; and the only local
resolution failures are those two — locale and currency never fail. -/
theorem claim_C6 :
    (∀ (o : AuthOptions) (w : UrlParams) (t : Request → HttpResponse),
        falsy o.sessionID = true → falsy w.sessionID = true →
        requestAuthenticate o w t = (.error (.missingConfig "sessionID"), 0)) ∧
    (∀ (o : BetOptions) (w : UrlParams) (t : Request → HttpResponse),
        falsy o.sessionID = true → falsy w.sessionID = true →
        requestBet o w t = (.error (.missingConfig "sessionID"), 0)) ∧
    (∀ (o : AuthOptions) (w : UrlParams) (t : Request → HttpResponse),
        falsy (jsOr o.sessionID w.sessionID) = false →
        falsy o.rgsUrl = true → falsy w.rgs_url = true →
        requestAuthenticate o w t = (.error (.missingConfig "rgsUrl"), 0)) ∧
    (∀ (o : AuthOptions) (w : UrlParams) (e : ClientError),
        buildAuthenticate o w = .error e →
        e = .missingConfig "sessionID" ∨ e = .missingConfig "rgsUrl") := by
  refine ⟨?_, ?_, ?_, ?_⟩
  · intro o w t h1 h2
    simp [requestAuthenticate, runPost, buildAuthenticate, getUrlParams, jsOr, h1, h2]
  · intro o w t h1 h2
    simp [requestBet, runPost, buildBet, getUrlParams, jsOr, h1, h2]
  · intro o w t h0 h1 h2
    simp [requestAuthenticate, runPost, buildAuthenticate, getUrlParams, h0,
      jsOr_of_falsy _ _ h1, h2]
  · intro o w e h
    unfold buildAuthenticate at h
    by_cases h1 : falsy (jsOr o.sessionID (getUrlParams w).sessionID) = true
    · simp [h1] at h
      exact Or.inl h.symm
    · by_cases h2 : falsy (jsOr o.rgsUrl (getUrlParams w).rgsUrl) = true
      · simp [h1, h2] at h
        exact Or.inr h.symm
      · simp [h1, h2] at h

/-- C6 witness: no explicit and no ambient session id fails naming
`sessionID` with zero transport invocations. -/
theorem claim_C6_witness :
    requestAuthenticate ⟨none, some "h", none⟩ noParams okTransport
      = (.error (.missingConfig "sessionID"), 0) :=
  claim_C6.1 ⟨none, some "h", none⟩ noParams okTransport rfl rfl

/-- C1 counterexample: at the concrete negative amount `-1` (with session,
host and currency all supplied), the bet operation does NOT fail with
`InvalidAmount`: it builds a wire body carrying amount `-1000000` and invokes
the transport once, while the claimed normalizer (`toWireAmountSpec`) rejects
the same input.  The claim that negative amounts fail before any network call
is therefore false of the code. -/
theorem claim_C1_counterexample :
    requestBet ⟨-1, "base", some "USD", some "s1", some "h"⟩ noParams okTransport
      = (.ok (.obj []), 1) ∧
    buildBet ⟨-1, "base", some "USD", some "s1", some "h"⟩ noParams
      = .ok ⟨"/wallet/play", "h", .play ⟨"base", "USD", "s1", -1000000⟩⟩ ∧
    toWireAmountSpec (-1) = .error .invalidAmount := by
  refine ⟨rfl, ?_, rfl⟩
  norm_num [buildBet, getUrlParams, jsOr, jsOrD, falsy, API_AMOUNT_MULTIPLIER]
  decide

/-- With non-empty explicit session, host and currency, `buildBet` succeeds
and its body carries `amount = x * API_AMOUNT_MULTIPLIER` with the other
fields passed through unchanged. -/
theorem buildBet_explicit (x : ℚ) (m c s h : String) (w : UrlParams)
    (hs : s ≠ "") (hh : h ≠ "") (hc : c ≠ "") :
    buildBet ⟨x, m, some c, some s, some h⟩ w
      = .ok ⟨"/wallet/play", h, .play ⟨m, c, s, x * API_AMOUNT_MULTIPLIER⟩⟩ := by
  simp [buildBet, getUrlParams, jsOr, jsOrD, falsy, hs, hh, hc]

/-- C1 (amended): the amount normalization of the bet operation is a bare
multiplication by `API_AMOUNT_MULTIPLIER`: for every amount `x` — negative
values included — the wire amount is exactly `x * 1_000_000`, with no rounding
and no `InvalidAmount` validation, and the request is built successfully. -/
theorem claim_C1_amended (x : ℚ) (m c s h : String) (w : UrlParams)
    (hs : s ≠ "") (hh : h ≠ "") (hc : c ≠ "") :
    buildBet ⟨x, m, some c, some s, some h⟩ w
      = .ok ⟨"/wallet/play", h, .play ⟨m, c, s, x * API_AMOUNT_MULTIPLIER⟩⟩ :=
  buildBet_explicit x m c s h w hs hh hc

/-- C1 amended witness at `x = -1`, `s = "s1"`, `h = "h"`, `c = "USD"`. -/
theorem claim_C1_amended_witness :
    buildBet ⟨-1, "mode", some "USD", some "s1", some "h"⟩ noParams
      = .ok ⟨"/wallet/play", "h", .play ⟨"mode", "USD", "s1", -1 * API_AMOUNT_MULTIPLIER⟩⟩ :=
  claim_C1_amended (-1) "mode" "USD" "s1" "h" noParams
    (by decide) (by decide) (by decide)

/-- C2: a bet call with explicit session `s`, host `h`, amount `a`, mode `m`
and currency `c` performs exactly one POST whose wire request targets
`https://{h}/wallet/play` and whose body carries `sessionID = s`, `mode = m`,
`currency = c` unchanged and `amount = a * API_AMOUNT_MULTIPLIER`; only the
amount field is transformed. -/
theorem claim_C2 (a : ℚ) (m c s h : String) (w : UrlParams)
    (t : Request → HttpResponse) (hs : s ≠ "") (hh : h ≠ "") (hc : c ≠ "") :
    requestBet ⟨a, m, some c, some s, some h⟩ w t
      = (post t ⟨"/wallet/play", h, .play ⟨m, c, s, a * API_AMOUNT_MULTIPLIER⟩⟩, 1) ∧
    sentRequest ⟨"/wallet/play", h, .play ⟨m, c, s, a * API_AMOUNT_MULTIPLIER⟩⟩
      = ⟨"POST", "https://" ++ h ++ "/wallet/play", .play ⟨m, c, s, a * API_AMOUNT_MULTIPLIER⟩⟩ := by
  constructor
  · unfold requestBet
    rw [buildBet_explicit a m c s h w hs hh hc]
    rfl
  · rfl

/-- C2 witness at the two instances given in the spec: amount `2.5` yields wire amount
`2500000` (scenario values `s1`/`h`/`base`/`USD`), and amount `1.00` yields
wire amount `1000000`. -/
theorem claim_C2_witness :
    (requestBet ⟨5 / 2, "base", some "USD", some "s1", some "h"⟩ noParams okTransport
        = (post okTransport ⟨"/wallet/play", "h",
            .play ⟨"base", "USD", "s1", 5 / 2 * API_AMOUNT_MULTIPLIER⟩⟩, 1) ∧
      sentRequest ⟨"/wallet/play", "h", .play ⟨"base", "USD", "s1", 5 / 2 * API_AMOUNT_MULTIPLIER⟩⟩
        = ⟨"POST", "https://" ++ "h" ++ "/wallet/play",
            .play ⟨"base", "USD", "s1", 5 / 2 * API_AMOUNT_MULTIPLIER⟩⟩) ∧
    (5 / 2 : ℚ) * API_AMOUNT_MULTIPLIER = 2500000 ∧
    (1 : ℚ) * API_AMOUNT_MULTIPLIER = 1000000 :=
  ⟨claim_C2 (5 / 2) "base" "USD" "s1" "h" noParams okTransport
      (by decide) (by decide) (by decide),
    by norm_num [API_AMOUNT_MULTIPLIER], by norm_num [API_AMOUNT_MULTIPLIER]⟩

/-- C7: converting a decimal amount with at most two fractional digits to the
wire representation (the `amount * API_AMOUNT_MULTIPLIER` of the code) and back
(`fromWireAmount`, division by the scale) returns the amount exactly — the
model uses exact rational arithmetic, so the round trip is exact, which is
stronger than the claimed "up to floating-point epsilon". -/
theorem claim_C7 (x : ℚ) (_hx : ∃ n : ℤ, x = n / 100) :
    fromWireAmount (x * API_AMOUNT_MULTIPLIER) = x := by
  unfold fromWireAmount API_AMOUNT_MULTIPLIER
  field_simp

/-- C7 witness at `x = 2.5` (a one-fractional-digit amount, `250/100`). -/
theorem claim_C7_witness :
    fromWireAmount ((5 / 2 : ℚ) * API_AMOUNT_MULTIPLIER) = 5 / 2 :=
  claim_C7 (5 / 2) ⟨250, by norm_num⟩

/-- C8 counterexample: a runtime bet call (TypeScript types erased) with both
`amount` and `mode` absent raises no `MissingArgument` failure: the build
succeeds with the absent fields passed through, and the transport is invoked
once — the claimed pre-network validation of operation-specific required
fields does not exist in the code. -/
theorem claim_C8_counterexample :
    requestBetJS ⟨none, none, some "USD", some "s1", some "h"⟩ noParams okTransport
      = (.ok (.obj []), 1) ∧
    buildBetJS ⟨none, none, some "USD", some "s1", some "h"⟩ noParams
      = .ok ⟨"/wallet/play", "h", .playJS ⟨none, "USD", "s1", none⟩⟩ := by
  exact ⟨rfl, by decide⟩

/-- C8 (amended): required-ness of `amount` and `mode` is enforced only by the
static TypeScript signature, not by any runtime check; the only validations
performed before the network call — for the bet and end-event operations —
are the presence of `sessionID` and `rgsUrl`, and when one of those fails the
failure is surfaced synchronously with the transport invoked zero times,
never as a domain status code. -/
theorem claim_C8_amended :
    (∀ (o : BetOptions) (w : UrlParams) (e : ClientError),
        buildBet o w = .error e →
        e = .missingConfig "sessionID" ∨ e = .missingConfig "rgsUrl") ∧
    (∀ (o : BetOptions) (w : UrlParams) (t : Request → HttpResponse) (e : ClientError),
        buildBet o w = .error e → requestBet o w t = (.error e, 0)) ∧
    (∀ (o : EventOptions) (w : UrlParams) (e : ClientError),
        buildEndEvent o w = .error e →
        e = .missingConfig "sessionID" ∨ e = .missingConfig "rgsUrl") := by
  refine ⟨?_, ?_, ?_⟩
  · intro o w e h
    unfold buildBet at h
    by_cases h1 : falsy (jsOr o.sessionID (getUrlParams w).sessionID) = true
    · simp [h1] at h
      exact Or.inl h.symm
    · by_cases h2 : falsy (jsOr o.rgsUrl (getUrlParams w).rgsUrl) = true
      · simp [h1, h2] at h
        exact Or.inr h.symm
      · simp [h1, h2] at h
  · intro o w t e h
    simp [requestBet, runPost, h]
  · intro o w e h
    unfold buildEndEvent at h
    by_cases h1 : falsy (jsOr o.sessionID (getUrlParams w).sessionID) = true
    · simp [h1] at h
      exact Or.inl h.symm
    · by_cases h2 : falsy (jsOr o.rgsUrl (getUrlParams w).rgsUrl) = true
      · simp [h1, h2] at h
        exact Or.inr h.symm
      · simp [h1, h2] at h

/-- C8 amended witness: a bet with no session id anywhere fails synchronously
naming `sessionID`, with the transport invoked zero times. -/
theorem claim_C8_amended_witness :
    requestBet ⟨1, "base", some "USD", none, some "h"⟩ noParams okTransport
      = (.error (.missingConfig "sessionID"), 0) :=
  claim_C8_amended.2.1 ⟨1, "base", some "USD", none, some "h"⟩ noParams okTransport
    (.missingConfig "sessionID") (by decide)

/-- C9 counterexample: an authenticate call with explicit session `"s1"` and
host `"api.example.com"` and no explicit locale, made in an ambient context
whose `lang` parameter is `"fr"`, sends body language `"fr"`, not the claimed
default `"en"` — the locale defaults to `"en"` only when the ambient source
also lacks it. -/
theorem claim_C9_counterexample :
    buildAuthenticate ⟨some "s1", some "api.example.com", none⟩
        ⟨none, none, some "fr", none⟩
      = .ok ⟨"/wallet/authenticate", "api.example.com", .auth ⟨"s1", "fr"⟩⟩ ∧
    buildAuthenticate ⟨some "s1", some "api.example.com", none⟩
        ⟨none, none, some "fr", none⟩
      ≠ .ok ⟨"/wallet/authenticate", "api.example.com", .auth ⟨"s1", "en"⟩⟩ := by
  constructor <;> decide

/-- C9 (amended): an authenticate call with explicit session `"s1"` and host
`"api.example.com"`, no explicit locale, and an ambient source supplying no
locale, issues a POST to `https://api.example.com/wallet/authenticate` whose
body is exactly `{sessionID: "s1", language: "en"}`, the locale defaulted. -/
theorem claim_C9_amended (w : UrlParams) (hl : falsy w.lang = true) :
    buildAuthenticate ⟨some "s1", some "api.example.com", none⟩ w
      = .ok ⟨"/wallet/authenticate", "api.example.com", .auth ⟨"s1", "en"⟩⟩ ∧
    sentRequest ⟨"/wallet/authenticate", "api.example.com", .auth ⟨"s1", "en"⟩⟩
      = ⟨"POST", "https://api.example.com/wallet/authenticate", .auth ⟨"s1", "en"⟩⟩ := by
  have hS : ("s1" : String) ≠ "" := by decide
  have hH : ("api.example.com" : String) ≠ "" := by decide
  constructor
  · simp [buildAuthenticate, getUrlParams, jsOr_of_ne _ hS, jsOr_of_ne _ hH,
      falsy_of_ne _ hS, falsy_of_ne _ hH, jsOrD_none, jsOrD_of_falsy _ _ hl]
  · decide

/-- C9 amended witness: in an ambient context with no parameters at all, the
scenario yields exactly the claimed request. -/
theorem claim_C9_amended_witness :
    buildAuthenticate ⟨some "s1", some "api.example.com", none⟩ noParams
      = .ok ⟨"/wallet/authenticate", "api.example.com", .auth ⟨"s1", "en"⟩⟩ ∧
    sentRequest ⟨"/wallet/authenticate", "api.example.com", .auth ⟨"s1", "en"⟩⟩
      = ⟨"POST", "https://api.example.com/wallet/authenticate", .auth ⟨"s1", "en"⟩⟩ :=
  claim_C9_amended noParams rfl

/-- C10: an explicitly supplied empty string never resolves: for every field
(session id, host, locale on authenticate; session id, currency on bet) a call
with an explicit `""` builds exactly the same request as a call omitting the
field, and when the ambient session id is also absent the empty-string call
fails as missing with the transport invoked zero times. -/
theorem claim_C10 :
    (∀ (r l : Option String) (w : UrlParams),
        buildAuthenticate ⟨some "", r, l⟩ w = buildAuthenticate ⟨none, r, l⟩ w) ∧
    (∀ (s l : Option String) (w : UrlParams),
        buildAuthenticate ⟨s, some "", l⟩ w = buildAuthenticate ⟨s, none, l⟩ w) ∧
    (∀ (s r : Option String) (w : UrlParams),
        buildAuthenticate ⟨s, r, some ""⟩ w = buildAuthenticate ⟨s, r, none⟩ w) ∧
    (∀ (a : ℚ) (m : String) (c r : Option String) (w : UrlParams),
        buildBet ⟨a, m, c, some "", r⟩ w = buildBet ⟨a, m, c, none, r⟩ w) ∧
    (∀ (a : ℚ) (m : String) (s r : Option String) (w : UrlParams),
        buildBet ⟨a, m, some "", s, r⟩ w = buildBet ⟨a, m, none, s, r⟩ w) ∧
    (∀ (l : Option String) (w : UrlParams) (t : Request → HttpResponse),
        falsy w.sessionID = true →
        requestAuthenticate ⟨some "", some "host", l⟩ w t
          = (.error (.missingConfig "sessionID"), 0)) := by
  refine ⟨fun r l w => rfl, fun s l w => rfl, fun s r w => rfl,
    fun a m c r w => rfl, fun a m s r w => rfl, ?_⟩
  intro l w t h
  simp [requestAuthenticate, runPost, buildAuthenticate, getUrlParams,
    jsOr_some_empty, h]

/-- C10 witness: explicit empty session id with an empty ambient context
fails as missing, transport invoked zero times. -/
theorem claim_C10_witness :
    requestAuthenticate ⟨some "", some "host", none⟩ noParams okTransport
      = (.error (.missingConfig "sessionID"), 0) :=
  claim_C10.2.2.2.2.2 none noParams okTransport rfl

end StakeEngine
